import Mathlib

/-!
Verification development for the StreamFX background-removal pipeline
(filter-background-removal.cpp, filter-nv-background-removal.cpp,
nvidia-vfx-background-removal.cpp, nvidia-cv-texture.cpp).

The C++ sources are shallowly embedded: instance fields become record
fields, member functions become state-transition functions, exceptions
become explicit outcome values supplied by an environment record, and
GPU/driver side effects (unmap, dealloc, alloc, map, parameter binds,
log lines, draws) are recorded as event counters in the result so that
"exactly one reallocation cycle" style properties can be stated.
-/

namespace StreamFX

/-! ## NVIDIA CV layer (nvidia-cv-texture.cpp) -/

namespace NvCv

/-- Counts of unmap / dealloc / alloc / map events performed on one buffer
role during a single operation. -/
structure RoleEvents where
  unmaps : Nat
  deallocs : Nat
  allocs : Nat
  maps : Nat
deriving DecidableEq

/-- No buffer events at all. -/
def RoleEvents.zero : RoleEvents := ⟨0, 0, 0, 0⟩

/-- One full reallocation cycle: unmap and dealloc the old buffer, then
alloc and map a new one. -/
def RoleEvents.oneCycle : RoleEvents := ⟨1, 1, 1, 1⟩

/-- An interop texture of nvidia-cv-texture.cpp: a GPU texture with a CV
image mapped from it.  Only the dimensions matter to the claims. -/
structure Texture where
  width : Nat
  height : Nat
deriving DecidableEq

/-- Embeds texture::texture (nvidia-cv-texture.cpp lines 60 to 69): a new
GPU texture is created and alloc() inits and maps the CV image — one
alloc and one map, nothing freed. -/
def Texture.create (w h : Nat) : Texture × RoleEvents :=
  (⟨w, h⟩, ⟨0, 0, 1, 1⟩)

/-- Embeds texture::resize (nvidia-cv-texture.cpp lines 71 to 84): free()
unmaps and deallocs the old CV image, a replacement GPU texture is
created at the new size, and alloc() inits and maps it again — exactly
one unmap, dealloc, alloc and map. -/
def Texture.resize (_t : Texture) (w h : Nat) : Texture × RoleEvents :=
  (⟨w, h⟩, RoleEvents.oneCycle)

/-- A plain CV image buffer (the source / destination / tmp roles of the
effect).  Only the dimensions matter to the claims. -/
structure Image where
  width : Nat
  height : Nat
deriving DecidableEq

/-- Modelled from the spec: the cv::image class implementation is not among
the sources (nvidia-cv.cpp only loads library symbols), so its creation is
modelled from the Resource Pool contract of spec section 4.1: allocate a
buffer of the requested size and map it into the accelerator's address
space. -/
def Image.create (w h : Nat) : Image × RoleEvents :=
  (⟨w, h⟩, ⟨0, 0, 1, 1⟩)

/-- Modelled from the spec: the cv::image class implementation is not among
the sources, so resize is modelled from the Resource Pool contract of spec
section 4.1: a size change unmaps and deallocates the old buffer, then
allocates and maps a new one of the requested size — one reallocation
cycle. -/
def Image.resize (_i : Image) (w h : Nat) : Image × RoleEvents :=
  (⟨w, h⟩, RoleEvents.oneCycle)

end NvCv

/-! ## NVIDIA VFX green-screen effect (nvidia-vfx-background-removal.cpp) -/

namespace NvVfx

open NvCv

/-- Buffer-holding state of the vfx background_removal effect: the lazily
allocated tmp / input / source / destination / output buffers and the
dirty flag that forces a reload before the next run. -/
structure VfxState where
  tmp : Option Image
  input : Option Texture
  source : Option Image
  destination : Option Image
  output : Option Texture
  dirty : Bool
deriving DecidableEq

/-- All buffer events of one resize call, per role, plus how often the
provider's input / output image parameters were rebound via
NvVFX_SetImage. -/
structure ResizeEvents where
  tmp : RoleEvents
  input : RoleEvents
  source : RoleEvents
  destination : RoleEvents
  output : RoleEvents
  setInputImage : Nat
  setOutputImage : Nat
deriving DecidableEq

/-- Resize call that performed no buffer event and no rebind. -/
def ResizeEvents.zero : ResizeEvents :=
  ⟨RoleEvents.zero, RoleEvents.zero, RoleEvents.zero, RoleEvents.zero, RoleEvents.zero, 0, 0⟩

/-- Outcome of one buffer block of background_removal::resize: the state
after the block, the events of its texture role and of its image role,
and how often the block rebound an image parameter via NvVFX_SetImage. -/
structure BlockOut where
  state : VfxState
  evTexture : RoleEvents
  evImage : RoleEvents
  setCalls : Nat
deriving DecidableEq

/-- Embeds the input block of background_removal::resize
(nvidia-vfx-background-removal.cpp lines 192 to 223): when the input
texture or source image is missing or the input texture's size differs
from the request, both are resized (or first created), the provider's
input image parameter is rebound (the NvVFX_SetImage / NvVFX_SetU32
failure branches log and throw without touching buffers and are modelled
as succeeding) and the effect is marked dirty. -/
def input_block (w h : Nat) (s1 : VfxState) : BlockOut :=
  if s1.input.isNone || s1.source.isNone ||
      (match s1.input with
       | some t => decide (w ≠ t.width) || decide (h ≠ t.height)
       | none => true) then
    let ri := match s1.input with
              | some t => t.resize w h
              | none => Texture.create w h
    let rs := match s1.source with
              | some i => i.resize w h
              | none => Image.create w h
    ⟨{ s1 with input := some ri.1, source := some rs.1, dirty := true },
      ri.2, rs.2, 1⟩
  else
    ⟨s1, RoleEvents.zero, RoleEvents.zero, 0⟩

/-- Embeds the output block of background_removal::resize
(nvidia-vfx-background-removal.cpp lines 226 to 250): when the
destination image or output texture is missing or the output texture's
size differs from the request, both are resized (or first created), the
provider's output image parameter is rebound and the effect is marked
dirty. -/
def output_block (w h : Nat) (s2 : VfxState) : BlockOut :=
  if s2.destination.isNone || s2.output.isNone ||
      (match s2.output with
       | some t => decide (w ≠ t.width) || decide (h ≠ t.height)
       | none => true) then
    let rd := match s2.destination with
              | some i => i.resize w h
              | none => Image.create w h
    let ro := match s2.output with
              | some t => t.resize w h
              | none => Texture.create w h
    ⟨{ s2 with destination := some rd.1, output := some ro.1, dirty := true },
      rd.2, ro.2, 1⟩
  else
    ⟨s2, RoleEvents.zero, RoleEvents.zero, 0⟩

/-- Embeds background_removal::resize (nvidia-vfx-background-removal.cpp
lines 181 to 251): the tmp image is allocated once on first use, then the
input block and the output block run in order. -/
def resize (w h : Nat) (s : VfxState) : VfxState × ResizeEvents :=
  let tmpStep : Option Image × RoleEvents :=
    match s.tmp with
    | some t => (some t, RoleEvents.zero)
    | none => let r := Image.create w h; (some r.1, r.2)
  let s1 : VfxState := { s with tmp := tmpStep.1 }
  let ib := input_block w h s1
  let ob := output_block w h ib.state
  (ob.state,
   ⟨tmpStep.2, ib.evTexture, ib.evImage, ob.evImage, ob.evTexture,
    ib.setCalls, ob.setCalls⟩)

/-- Embeds background_removal::size (nvidia-vfx-background-removal.cpp
lines 106 to 112): the function writes output_size.first and
output_size.second from input_size and modifies nothing else; the first
argument is ignored.  Returned value is the pair of reference parameters
(input_size, output_size) after the call. -/
def size (_sz : Nat × Nat) (input_size : Nat × Nat) (_output_size : Nat × Nat) :
    (Nat × Nat) × (Nat × Nat) :=
  (input_size, (input_size.1, input_size.2))

end NvVfx

/-! ## Standalone NVIDIA background-removal filter
(filter-nv-background-removal.cpp) -/

namespace NvFilter

/-- Round half away from zero of the nonnegative quotient a / b, as the C
round() call applied to a nonnegative double quotient.  For the concrete
inputs of the claims the quotient is far from a representability or tie
boundary, so exact rational rounding agrees with the double computation. -/
def roundDiv (a b : Nat) : Nat := (2 * a + b) / (2 * b)

/-- Embeds background_removal_instance's enforce-size member
(filter-nv-background-removal.cpp lines 372 to 394).  When width dominates
the width is clamped to [142, 1920] and the height follows the aspect
ratio rounded to nearest; when height dominates (or the sides are equal)
the height is clamped to [80, 1080] and the width follows the aspect
ratio rounded to nearest.  std::clamp(v, lo, hi) is min (max v lo) hi. -/
def enforce_size_nvidia_background_removal (x y : Nat) : Nat × Nat :=
  if y < x then
    -- Dominant Width: ar = y / x, rx = clamp(x, 142, 1920), ry = round(rx * ar)
    let rx := min (max x 142) 1920
    let ry := roundDiv (rx * y) x
    (rx, ry)
  else
    -- Dominant Height: ar = x / y, ry = clamp(y, 80, 1080), rx = round(ry * ar)
    let ry := min (max y 80) 1080
    let rx := roundDiv (ry * x) y
    (rx, ry)

end NvFilter

/-! ## Background-removal filter pipeline (filter-background-removal.cpp) -/

namespace BgRemoval

/-- Provider enumerants of filter-background-removal.hpp lines 37 to 41.
The C++ enum is carried as an integer (settings deliver an arbitrary
int64 which is cast to the enum), so the identity is embedded as Int. -/
def INVALID : Int := -1

/-- Reserved automatic meta-value of the provider enum. -/
def AUTOMATIC : Int := 0

/-- Concrete NVIDIA green-screen provider enumerant. -/
def NVIDIA_GREEN_SCREEN : Int := 1

/-- Priority of providers for automatic selection
(filter-background-removal.cpp lines 61 to 63). -/
def provider_priority : List Int := [NVIDIA_GREEN_SCREEN]

/-- Instance state of background_removal_instance
(filter-background-removal.hpp lines 47 to 65).  Texture contents are
tracked as Nat identifiers; the _masked render target caches the pair
(capture content, mask content) of the last successful composite (none
until the first composite).  The provider task handle carries its
switch_provider_data_t payload, i.e. the provider identity to unload. -/
structure FilterState where
  in_size : Nat × Nat
  out_size : Nat × Nat
  provider_ready : Bool
  provider : Int
  provider_task : Option Int
  input_tex : Nat
  mask : Option Nat
  masked : Option (Nat × Nat)
  dirty : Bool
  nvidia_fx : Bool
deriving DecidableEq

/-- What one video_render call did to the host: skip the filter
(obs_source_skip_video_filter) or draw the cached masked texture. -/
inductive RenderAction where
  | skip : RenderAction
  | present : Option (Nat × Nat) → RenderAction
deriving DecidableEq

/-- Observable effects of one video_render call: the host action, log
lines emitted for this frame, successful input captures, invocations of
the loaded provider effect, and writes of the cached composited frame. -/
structure RenderOut where
  action : RenderAction
  logs : Nat
  captures : Nat
  processCalls : Nat
  compositeWrites : Nat
deriving DecidableEq

/-- Render call that skipped the filter without logging or touching any
buffer. -/
def RenderOut.skipped : RenderOut := ⟨RenderAction.skip, 0, 0, 0, 0⟩

/-- Host-supplied inputs and accelerator outcomes of one video_render
call: the target source and its base size (none when
obs_filter_get_target is null), whether a parent source exists, the
captured frame content, whether obs_source_process_filter_begin
succeeds, the result of the loaded NVIDIA effect's process call (none
models a throw; the effect logs the failing call before throwing), and
whether the masking draw succeeds. -/
structure RenderEnv where
  target : Option (Nat × Nat)
  parent : Bool
  frame : Nat
  captureOk : Bool
  fxResult : Option Nat
  compositeOk : Bool
deriving DecidableEq

/-- Continuation of video_render after the provider switch statement
(filter-background-removal.cpp lines 313 to 365): a missing mask logs and
skips; otherwise the masking pass composites (capture, mask) into the
_masked cache, clears dirty and falls through to the present step, while
a throw during the masking pass skips. -/
def render_after_process (env : RenderEnv) (pc : Nat) (s2 : FilterState) :
    FilterState × RenderOut :=
  match s2.mask with
  | none => (s2, ⟨RenderAction.skip, 1, 1, pc, 0⟩)
  | some m =>
    if env.compositeOk then
      let s3 : FilterState := { s2 with masked := some (s2.input_tex, m), dirty := false }
      (s3, ⟨RenderAction.present (some (s2.input_tex, m)), 0, 1, pc, 1⟩)
    else
      (s2, ⟨RenderAction.skip, 0, 1, pc, 0⟩)

/-- Process step of video_render (filter-background-removal.cpp lines 294
to 311) together with nvidia_process (lines 488 to 496): the NVIDIA case
uses the loaded effect (whose process may throw, caught as a skip), falls
back to the raw capture when no effect object is loaded, and the default
case resets the mask. -/
def render_process (env : RenderEnv) (s1 : FilterState) : FilterState × RenderOut :=
  if s1.provider = NVIDIA_GREEN_SCREEN then
    if s1.nvidia_fx then
      match env.fxResult with
      | some t => render_after_process env 1 { s1 with mask := some t }
      | none => (s1, ⟨RenderAction.skip, 1, 1, 1, 0⟩)
    else
      render_after_process env 0 { s1 with mask := some s1.input_tex }
  else
    render_after_process env 0 { s1 with mask := none }

/-- Embeds background_removal_instance::video_render
(filter-background-removal.cpp lines 226 to 377).  The skip guard uses
the base size of the original target and the target-or-parent fallback;
when dirty, the frame is captured into _input, processed, masked into
_masked and dirty is cleared; the final step draws the cached _masked
texture. -/
def video_render (env : RenderEnv) (s : FilterState) : FilterState × RenderOut :=
  if s.provider_ready = false ∨ (env.target = none ∧ env.parent = false) ∨
      (env.target.getD (0, 0)).1 = 0 ∨ (env.target.getD (0, 0)).2 = 0 then
    (s, RenderOut.skipped)
  else if s.dirty then
    if env.captureOk then
      render_process env { s with input_tex := env.frame }
    else
      (s, RenderOut.skipped)
  else
    (s, ⟨RenderAction.present s.masked, 0, 0, 0, 0⟩)

/-- Host input of one video_tick call: the target source and its base
size (none when obs_filter_get_target is null). -/
structure TickEnv where
  target : Option (Nat × Nat)
deriving DecidableEq

/-- Embeds nvidia_size (filter-background-removal.cpp lines 478 to 486):
without a loaded effect nothing happens; otherwise the effect's size
call rewrites _out_size from _in_size while _in_size is unchanged. -/
def nvidia_size (s : FilterState) : FilterState :=
  if s.nvidia_fx then
    let r := NvVfx.size s.in_size s.in_size s.out_size
    { s with in_size := r.1, out_size := r.2 }
  else
    s

/-- Embeds background_removal_instance::video_tick
(filter-background-removal.cpp lines 200 to 224): reads the target base
size into _in_size and _out_size, lets a ready NVIDIA provider restrict
the size, then marks the instance dirty. -/
def video_tick (env : TickEnv) (s : FilterState) : FilterState :=
  let wh := env.target.getD (0, 0)
  let s1 : FilterState := { s with in_size := wh, out_size := wh }
  let s2 :=
    if env.target.isSome ∧ s1.provider_ready = true ∧ s1.provider = NVIDIA_GREEN_SCREEN then
      nvidia_size s1
    else
      s1
  { s2 with dirty := true }

/-- Observable effects of one switch_provider call: whether a new task
was enqueued, whether a pending task was evicted from the pool, how many
switch_provider_data_t allocations happened, and log lines emitted. -/
structure SwitchOut where
  enqueued : Bool
  popped : Bool
  allocs : Nat
  logs : Nat
deriving DecidableEq

/-- Switch call that did nothing at all. -/
def SwitchOut.noop : SwitchOut := ⟨false, false, 0, 0⟩

/-- Embeds background_removal_instance::switch_provider
(filter-background-removal.cpp lines 383 to 414): a call with the already
active provider returns immediately; otherwise the pending task (if any)
is popped, a switch_provider_data_t carrying the old identity is
allocated, _provider is set to the new identity and a task capturing the
data is pushed, becoming the new pending-task handle. -/
def switch_provider (p : Int) (s : FilterState) : FilterState × SwitchOut :=
  if p = s.provider then
    (s, SwitchOut.noop)
  else
    let popped := s.provider_task.isSome
    let old := s.provider
    ({ s with provider := p, provider_task := some old },
     ⟨true, popped, 1, 1⟩)

/-- Accelerator outcome of one switch task execution: whether
constructing the NVIDIA effect object (nvidia_load) succeeds or throws. -/
structure TaskEnv where
  loadOk : Bool
deriving DecidableEq

/-- Log lines of one switch task execution: the success info line and the
failure error line. -/
structure TaskOut where
  infoLogged : Bool
  errLogged : Bool
deriving DecidableEq

/-- Step 1 of task_switch_provider (filter-background-removal.cpp line
422): mark the provider as no longer ready. -/
def task_mark_not_ready (s : FilterState) : FilterState :=
  { s with provider_ready := false }

/-- Steps 2 to 5 of task_switch_provider (filter-background-removal.cpp
lines 425 to 464), executed under the provider lock: unload the previous
provider (nvidia_unload resets the effect pointer and cannot throw),
load the new one (nvidia_load may throw), and only after a successful
load log the info line and set _provider_ready; any exception leaves
_provider_ready false and logs the error line. -/
def task_locked_body (env : TaskEnv) (old : Int) (s : FilterState) :
    FilterState × TaskOut :=
  let s1 := if old = NVIDIA_GREEN_SCREEN then { s with nvidia_fx := false } else s
  if s1.provider = NVIDIA_GREEN_SCREEN then
    if env.loadOk then
      ({ s1 with nvidia_fx := true, provider_ready := true }, ⟨true, false⟩)
    else
      (s1, ⟨false, true⟩)
  else
    ({ s1 with provider_ready := true }, ⟨true, false⟩)

/-- Embeds background_removal_instance::task_switch_provider
(filter-background-removal.cpp lines 416 to 465); old is the previous
provider identity carried by the switch_provider_data_t. -/
def task_switch_provider (env : TaskEnv) (old : Int) (s : FilterState) :
    FilterState × TaskOut :=
  task_locked_body env old (task_mark_not_ready s)

/-- Factory state relevant to provider availability
(filter-background-removal.cpp lines 538 to 573): whether the NVIDIA
SDKs loaded. -/
structure FactoryState where
  nvidia_available : Bool
deriving DecidableEq

/-- Embeds background_removal_factory::is_provider_available
(filter-background-removal.cpp lines 630 to 641). -/
def is_provider_available (f : FactoryState) (p : Int) : Bool :=
  if p = NVIDIA_GREEN_SCREEN then f.nvidia_available else false

/-- Embeds the automatic-resolution loop of
background_removal_instance::update (filter-background-removal.cpp lines
142 to 151): an AUTOMATIC selection walks provider_priority and takes
the first provider the factory reports available, staying AUTOMATIC if
none is. -/
def resolve_automatic (f : FactoryState) (p : Int) : Int :=
  if p = AUTOMATIC then
    match provider_priority.find? (fun v => is_provider_available f v) with
    | some v => v
    | none => p
  else
    p

/-- Embeds background_removal_instance::update
(filter-background-removal.cpp lines 139 to 171): resolve the selected
provider, switch when it differs from the active one (the subsequent
per-provider update block is empty in the source). -/
def update (f : FactoryState) (settings_provider : Int) (s : FilterState) :
    FilterState × SwitchOut :=
  let provider := resolve_automatic f settings_provider
  if provider ≠ s.provider then
    switch_provider provider s
  else
    (s, SwitchOut.noop)

end BgRemoval

/-! ## Concrete fixtures for witnesses and counterexamples -/

namespace Fixtures

/-- A pipeline state with a ready NVIDIA provider, used by the C3 witness. -/
def c3_state : BgRemoval.FilterState :=
  ⟨(2, 2), (2, 2), true, BgRemoval.NVIDIA_GREEN_SCREEN, none, 0, none, some (9, 9), false, true⟩

/-- A pipeline state with a ready NVIDIA provider, used by the C4
counterexample and witness. -/
def c4_state : BgRemoval.FilterState :=
  ⟨(2, 2), (2, 2), true, BgRemoval.NVIDIA_GREEN_SCREEN, none, 0, none, some (9, 9), false, true⟩

/-- A dirty pipeline state whose provider process step will throw, used by
the C5 witness. -/
def c5_state : BgRemoval.FilterState :=
  ⟨(2, 2), (2, 2), true, BgRemoval.NVIDIA_GREEN_SCREEN, none, 0, none, some (9, 9), true, true⟩

/-- A render environment whose effect process call throws, used by the C5
witness. -/
def c5_env : BgRemoval.RenderEnv :=
  ⟨some (2, 2), true, 5, true, none, true⟩

/-- A clean (not dirty) ready pipeline state, used by the C6 witness. -/
def c6_state : BgRemoval.FilterState :=
  ⟨(2, 2), (2, 2), true, BgRemoval.NVIDIA_GREEN_SCREEN, none, 0, none, some (9, 9), false, true⟩

/-- A fully valid render environment, used by the C6 witness. -/
def c6_env : BgRemoval.RenderEnv :=
  ⟨some (2, 2), true, 5, true, some 7, true⟩

/-- An environment with no target and no parent, used by the C1 witness. -/
def c1_env : BgRemoval.RenderEnv :=
  ⟨none, false, 5, true, some 7, true⟩

/-- A dirty ready pipeline state, used by the C1 witness. -/
def c1_state : BgRemoval.FilterState :=
  ⟨(2, 2), (2, 2), true, BgRemoval.NVIDIA_GREEN_SCREEN, none, 0, none, some (9, 9), true, true⟩

/-- A vfx effect state with every buffer bound at 4 by 4, used by the C7
witness. -/
def c7_state : NvVfx.VfxState :=
  ⟨some ⟨4, 4⟩, some ⟨4, 4⟩, some ⟨4, 4⟩, some ⟨4, 4⟩, some ⟨4, 4⟩, false⟩

end Fixtures

end StreamFX

open StreamFX

/-! ## Claim theorems -/

/-- C8 counterexample: on input 4000 by 30 the size-enforcement function of
filter-nv-background-removal.cpp returns (1920, 14): the short side is 14,
not 80, so the claimed clamp of the short side into the range 80 to 1080
does not hold on this input. -/
theorem c8_counterexample_short_side_not_clamped :
    NvFilter.enforce_size_nvidia_background_removal 4000 30 = (1920, 14) ∧
      min 1920 14 ≠ 80 := by
  exact ⟨by decide, by decide⟩

/-- C8 amended: for the input 4000 by 30 the width dominates, so the
function clamps the long side (the width) into the range 142 to 1920,
yielding 1920, and scales the short side by the input aspect ratio
rounded to nearest (1920 times 30 over 4000 is 14.4, within one half of
14); the short side is not clamped into the range 80 to 1080 and ends
below 80. -/
theorem c8_amended_long_side_clamped_aspect_preserved :
    NvFilter.enforce_size_nvidia_background_removal 4000 30 = (1920, 14) ∧
      (1920 : Nat) = min (max 4000 142) 1920 ∧
      ((14 : ℚ) - 1920 * 30 / 4000 ≤ 1 / 2 ∧ (1920 : ℚ) * 30 / 4000 - 14 ≤ 1 / 2) ∧
      ¬ (80 ≤ (14 : Nat)) := by
  refine ⟨by decide, by decide, ⟨by norm_num, by norm_num⟩, by decide⟩

/-- C10: the NVIDIA green-screen adapter's size operation writes the
output size from the input size component by component for every
argument triple, leaves the input size unchanged, and so applies no
clamping or aspect restriction; accordingly nvidia_size of the filter
rewrites _out_size from _in_size when an effect is loaded and does
nothing otherwise. -/
theorem c10_size_is_identity_on_input :
    (∀ sz input output : Nat × Nat,
        NvVfx.size sz input output = (input, (input.1, input.2))) ∧
      (∀ s : BgRemoval.FilterState, s.nvidia_fx = true →
        BgRemoval.nvidia_size s = { s with out_size := s.in_size }) ∧
      (∀ s : BgRemoval.FilterState, s.nvidia_fx = false →
        BgRemoval.nvidia_size s = s) := by
  refine ⟨fun sz input output => rfl, fun s h => ?_, fun s h => ?_⟩ <;>
    simp [BgRemoval.nvidia_size, NvVfx.size, h]

/-- C3: switching to the provider that is already active is a no-op: the
call returns the state unchanged, enqueues no task, pops no task,
allocates nothing and logs nothing. -/
theorem c3_switch_provider_same_is_noop (p : Int) (s : BgRemoval.FilterState)
    (h : p = s.provider) :
    BgRemoval.switch_provider p s = (s, BgRemoval.SwitchOut.noop) := by
  simp [BgRemoval.switch_provider, h]

/-- C3 witness: the no-op theorem applied at the concrete ready state. -/
theorem c3_switch_provider_same_is_noop_witness :
    BgRemoval.NVIDIA_GREEN_SCREEN = Fixtures.c3_state.provider ∧
      BgRemoval.switch_provider BgRemoval.NVIDIA_GREEN_SCREEN Fixtures.c3_state =
        (Fixtures.c3_state, BgRemoval.SwitchOut.noop) :=
  ⟨by decide,
   c3_switch_provider_same_is_noop BgRemoval.NVIDIA_GREEN_SCREEN Fixtures.c3_state (by decide)⟩

/-- C4 counterexample: switching a ready instance from the NVIDIA provider
to INVALID leaves provider_ready true when switch_provider returns — the
claim that the call itself clears provider_ready to false is refuted at
this concrete input. -/
theorem c4_counterexample_ready_not_cleared_by_call :
    BgRemoval.INVALID ≠ Fixtures.c4_state.provider ∧
      Fixtures.c4_state.provider_ready = true ∧
      (BgRemoval.switch_provider BgRemoval.INVALID Fixtures.c4_state).1.provider_ready = true := by
  decide

/-- C4 amended: a switch_provider call with a provider different from the
active one records the old identity into the task data, sets the active
provider to the new identity and enqueues an asynchronous task capturing
the old identity, but leaves provider_ready untouched; the readiness
flag is cleared as the first step of the asynchronous task body when
that task executes. -/
theorem c4_amended_switch_provider_effects (p : Int) (s : BgRemoval.FilterState)
    (h : p ≠ s.provider) :
    (BgRemoval.switch_provider p s).1.provider = p ∧
      (BgRemoval.switch_provider p s).1.provider_task = some s.provider ∧
      (BgRemoval.switch_provider p s).2.enqueued = true ∧
      (BgRemoval.switch_provider p s).2.allocs = 1 ∧
      (BgRemoval.switch_provider p s).1.provider_ready = s.provider_ready ∧
      (∀ env old,
        BgRemoval.task_switch_provider env old (BgRemoval.switch_provider p s).1 =
          BgRemoval.task_locked_body env old
            { (BgRemoval.switch_provider p s).1 with provider_ready := false }) := by
  refine ⟨?_, ?_, ?_, ?_, ?_, fun env old => rfl⟩ <;>
    simp [BgRemoval.switch_provider, h]

/-- C4 amended witness: the amended theorem applied at the concrete ready
state switching from NVIDIA to INVALID. -/
theorem c4_amended_switch_provider_effects_witness :
    BgRemoval.INVALID ≠ Fixtures.c4_state.provider ∧
      (BgRemoval.switch_provider BgRemoval.INVALID Fixtures.c4_state).1.provider =
        BgRemoval.INVALID ∧
      (BgRemoval.switch_provider BgRemoval.INVALID Fixtures.c4_state).1.provider_task =
        some Fixtures.c4_state.provider :=
  ⟨by decide,
   (c4_amended_switch_provider_effects BgRemoval.INVALID Fixtures.c4_state (by decide)).1,
   (c4_amended_switch_provider_effects BgRemoval.INVALID Fixtures.c4_state (by decide)).2.1⟩

/-- C2: after a switch task executes, provider_ready is true exactly when
loading the new provider completed without exception (a non-NVIDIA
target loads trivially; the NVIDIA target loads when the effect
construction does not throw), and on a load exception provider_ready is
false, the error line is logged and the success line is not. -/
theorem c2_task_switch_ready_iff_load_ok (env : BgRemoval.TaskEnv) (old : Int)
    (s : BgRemoval.FilterState) :
    ((BgRemoval.task_switch_provider env old s).1.provider_ready = true ↔
        (s.provider = BgRemoval.NVIDIA_GREEN_SCREEN → env.loadOk = true)) ∧
      (s.provider = BgRemoval.NVIDIA_GREEN_SCREEN → env.loadOk = false →
        (BgRemoval.task_switch_provider env old s).1.provider_ready = false ∧
          (BgRemoval.task_switch_provider env old s).2.errLogged = true ∧
          (BgRemoval.task_switch_provider env old s).2.infoLogged = false) := by
  unfold BgRemoval.task_switch_provider BgRemoval.task_locked_body
    BgRemoval.task_mark_not_ready
  by_cases h1 : old = BgRemoval.NVIDIA_GREEN_SCREEN <;>
    by_cases h2 : s.provider = BgRemoval.NVIDIA_GREEN_SCREEN <;>
      by_cases h3 : env.loadOk = true <;>
        simp_all

/-- C9: a configuration update resolves the AUTOMATIC selection through
the fixed priority list against factory availability before comparing
with the active provider (with the single-entry priority list this is
the NVIDIA provider when available, else AUTOMATIC itself); when the
resolved identity differs from the active provider a switch is requested
and the active identity becomes the resolved one, and when it is equal
no switch and no state change occurs. -/
theorem c9_update_resolves_automatic_then_switches (f : BgRemoval.FactoryState)
    (p : Int) (s : BgRemoval.FilterState) :
    (BgRemoval.resolve_automatic f BgRemoval.AUTOMATIC =
        if f.nvidia_available = true then BgRemoval.NVIDIA_GREEN_SCREEN
        else BgRemoval.AUTOMATIC) ∧
      (BgRemoval.update f p s =
        if BgRemoval.resolve_automatic f p ≠ s.provider then
          BgRemoval.switch_provider (BgRemoval.resolve_automatic f p) s
        else (s, BgRemoval.SwitchOut.noop)) ∧
      (BgRemoval.resolve_automatic f p ≠ s.provider →
        (BgRemoval.update f p s).2.enqueued = true ∧
          (BgRemoval.update f p s).1.provider = BgRemoval.resolve_automatic f p) ∧
      (BgRemoval.resolve_automatic f p = s.provider →
        BgRemoval.update f p s = (s, BgRemoval.SwitchOut.noop)) := by
  refine ⟨?_, ?_, fun h => ?_, fun h => ?_⟩
  · by_cases h : f.nvidia_available = true <;>
      simp [BgRemoval.resolve_automatic, BgRemoval.provider_priority,
        BgRemoval.is_provider_available, List.find?, h, BgRemoval.AUTOMATIC,
        BgRemoval.NVIDIA_GREEN_SCREEN]
  · rfl
  · simp [BgRemoval.update, BgRemoval.switch_provider, h]
  · simp [BgRemoval.update, h]

/-- C1: when the provider is not ready, or there is neither target nor
parent, or the target's base width or height is zero, video_render skips
the filter and returns with the whole instance state — cached frame,
dirty flag and provider state included — unchanged, performing no
capture, no process call, no composite write and no logging. -/
theorem c1_render_guard_skips_unchanged (env : BgRemoval.RenderEnv)
    (s : BgRemoval.FilterState)
    (h : s.provider_ready = false ∨ (env.target = none ∧ env.parent = false) ∨
      (env.target.getD (0, 0)).1 = 0 ∨ (env.target.getD (0, 0)).2 = 0) :
    BgRemoval.video_render env s = (s, BgRemoval.RenderOut.skipped) := by
  unfold BgRemoval.video_render
  rw [if_pos h]

/-- C1 witness: the guard theorem applied at an environment with neither
target nor parent. -/
theorem c1_render_guard_skips_unchanged_witness :
    (Fixtures.c1_env.target = none ∧ Fixtures.c1_env.parent = false) ∧
      BgRemoval.video_render Fixtures.c1_env Fixtures.c1_state =
        (Fixtures.c1_state, BgRemoval.RenderOut.skipped) :=
  ⟨by decide,
   c1_render_guard_skips_unchanged Fixtures.c1_env Fixtures.c1_state (Or.inr (Or.inl (by decide)))⟩

/-- Helper for C5: whenever the process step of a dirty render yields no
mask — the provider switch falls into the default case, or the loaded
NVIDIA effect throws — render_process skips, logs once, writes no
composite, and changes neither the cached composited frame, the dirty
flag, nor any provider state. -/
theorem render_process_no_result (env : BgRemoval.RenderEnv)
    (s1 : BgRemoval.FilterState)
    (hfail : s1.provider ≠ BgRemoval.NVIDIA_GREEN_SCREEN ∨
      (s1.nvidia_fx = true ∧ env.fxResult = none)) :
    (BgRemoval.render_process env s1).2.action = BgRemoval.RenderAction.skip ∧
      (BgRemoval.render_process env s1).2.logs = 1 ∧
      (BgRemoval.render_process env s1).2.compositeWrites = 0 ∧
      (BgRemoval.render_process env s1).1.masked = s1.masked ∧
      (BgRemoval.render_process env s1).1.dirty = s1.dirty ∧
      (BgRemoval.render_process env s1).1.nvidia_fx = s1.nvidia_fx ∧
      (BgRemoval.render_process env s1).1.provider = s1.provider ∧
      (BgRemoval.render_process env s1).1.provider_ready = s1.provider_ready := by
  by_cases hp : s1.provider = BgRemoval.NVIDIA_GREEN_SCREEN
  · rcases hfail with h | ⟨hfx, hres⟩
    · exact absurd hp h
    · simp [BgRemoval.render_process, hp, hfx, hres]
  · simp [BgRemoval.render_process, BgRemoval.render_after_process, hp]

/-- C5: on a dirty render whose capture succeeds but whose process step
yields no mask (an inactive provider resets the mask, or the loaded
NVIDIA effect throws), the call logs once, skips the frame, writes no
composite, and leaves the cached composited frame, the dirty flag (still
set, so the next render retries) and the provider state unchanged. -/
theorem c5_render_process_failure_passthrough (env : BgRemoval.RenderEnv)
    (s : BgRemoval.FilterState)
    (hready : s.provider_ready = true)
    (htarget : ¬ (env.target = none ∧ env.parent = false))
    (hw : (env.target.getD (0, 0)).1 ≠ 0)
    (hh : (env.target.getD (0, 0)).2 ≠ 0)
    (hdirty : s.dirty = true)
    (hcap : env.captureOk = true)
    (hfail : s.provider ≠ BgRemoval.NVIDIA_GREEN_SCREEN ∨
      (s.nvidia_fx = true ∧ env.fxResult = none)) :
    (BgRemoval.video_render env s).2.action = BgRemoval.RenderAction.skip ∧
      (BgRemoval.video_render env s).2.logs = 1 ∧
      (BgRemoval.video_render env s).2.compositeWrites = 0 ∧
      (BgRemoval.video_render env s).1.masked = s.masked ∧
      (BgRemoval.video_render env s).1.dirty = true ∧
      (BgRemoval.video_render env s).1.nvidia_fx = s.nvidia_fx ∧
      (BgRemoval.video_render env s).1.provider = s.provider ∧
      (BgRemoval.video_render env s).1.provider_ready = s.provider_ready := by
  have hskip : ¬ (s.provider_ready = false ∨ (env.target = none ∧ env.parent = false) ∨
      (env.target.getD (0, 0)).1 = 0 ∨ (env.target.getD (0, 0)).2 = 0) := by
    simp only [hready, not_or]
    exact ⟨by simp, htarget, hw, hh⟩
  have hmain := render_process_no_result env { s with input_tex := env.frame }
    (by simpa using hfail)
  unfold BgRemoval.video_render
  rw [if_neg hskip, if_pos hdirty, if_pos hcap]
  simpa [hdirty] using hmain

/-- C5 witness: the pass-through theorem applied at a concrete dirty
ready state whose loaded effect throws during process. -/
theorem c5_render_process_failure_passthrough_witness :
    Fixtures.c5_state.dirty = true ∧
      Fixtures.c5_env.fxResult = none ∧
      (BgRemoval.video_render Fixtures.c5_env Fixtures.c5_state).2.action =
        BgRemoval.RenderAction.skip ∧
      (BgRemoval.video_render Fixtures.c5_env Fixtures.c5_state).1.masked =
        Fixtures.c5_state.masked :=
  ⟨by decide, by decide,
   (c5_render_process_failure_passthrough Fixtures.c5_env Fixtures.c5_state
      (by decide) (by decide) (by decide) (by decide) (by decide) (by decide)
      (Or.inr ⟨by decide, by decide⟩)).1,
   (c5_render_process_failure_passthrough Fixtures.c5_env Fixtures.c5_state
      (by decide) (by decide) (by decide) (by decide) (by decide) (by decide)
      (Or.inr ⟨by decide, by decide⟩)).2.2.2.1⟩

/-- Helper for C6: whatever render_after_process presents is the content
of the _masked cache it returns. -/
theorem render_after_process_present_is_masked (env : BgRemoval.RenderEnv)
    (pc : Nat) (s2 : BgRemoval.FilterState) (m : Option (Nat × Nat)) :
    (BgRemoval.render_after_process env pc s2).2.action =
        BgRemoval.RenderAction.present m →
      m = (BgRemoval.render_after_process env pc s2).1.masked := by
  unfold BgRemoval.render_after_process
  split
  · simp
  · split
    · intro hp
      simp only at hp ⊢
      simp at hp
      simp [hp]
    · simp

/-- Helper for C6: render_after_process clears the dirty flag only by a
successful composite write which is then presented. -/
theorem render_after_process_dirty_clear (env : BgRemoval.RenderEnv)
    (pc : Nat) (s2 : BgRemoval.FilterState) :
    (BgRemoval.render_after_process env pc s2).1.dirty = false →
      s2.dirty = false ∨
        ((BgRemoval.render_after_process env pc s2).2.compositeWrites = 1 ∧
          (BgRemoval.render_after_process env pc s2).2.action =
            BgRemoval.RenderAction.present
              ((BgRemoval.render_after_process env pc s2).1.masked)) := by
  unfold BgRemoval.render_after_process
  split
  · exact fun hd => Or.inl hd
  · split
    · exact fun _ => Or.inr ⟨rfl, rfl⟩
    · exact fun hd => Or.inl hd

/-- Helper for C6: whatever render_process presents is the content of the
_masked cache it returns. -/
theorem render_process_present_is_masked (env : BgRemoval.RenderEnv)
    (s1 : BgRemoval.FilterState) (m : Option (Nat × Nat)) :
    (BgRemoval.render_process env s1).2.action = BgRemoval.RenderAction.present m →
      m = (BgRemoval.render_process env s1).1.masked := by
  unfold BgRemoval.render_process
  by_cases hp : s1.provider = BgRemoval.NVIDIA_GREEN_SCREEN
  · by_cases hfx : s1.nvidia_fx = true
    · cases hres : env.fxResult with
      | some t =>
        simpa [hp, hfx, hres] using
          render_after_process_present_is_masked env 1 { s1 with mask := some t } m
      | none => simp [hp, hfx, hres]
    · simpa [hp, hfx] using
        render_after_process_present_is_masked env 0 { s1 with mask := some s1.input_tex } m
  · simpa [hp] using
      render_after_process_present_is_masked env 0 { s1 with mask := none } m

/-- Helper for C6: render_process clears the dirty flag only by a
successful composite write which is then presented. -/
theorem render_process_dirty_clear (env : BgRemoval.RenderEnv)
    (s1 : BgRemoval.FilterState) :
    (BgRemoval.render_process env s1).1.dirty = false →
      s1.dirty = false ∨
        ((BgRemoval.render_process env s1).2.compositeWrites = 1 ∧
          (BgRemoval.render_process env s1).2.action =
            BgRemoval.RenderAction.present
              ((BgRemoval.render_process env s1).1.masked)) := by
  unfold BgRemoval.render_process
  by_cases hp : s1.provider = BgRemoval.NVIDIA_GREEN_SCREEN
  · by_cases hfx : s1.nvidia_fx = true
    · cases hres : env.fxResult with
      | some t =>
        simpa [hp, hfx, hres] using
          render_after_process_dirty_clear env 1 { s1 with mask := some t }
      | none => simp [hp, hfx, hres]
    · simpa [hp, hfx] using
        render_after_process_dirty_clear env 0 { s1 with mask := some s1.input_tex }
  · simpa [hp] using
      render_after_process_dirty_clear env 0 { s1 with mask := none }

/-- Helper for C6: whatever video_render presents is the content of the
_masked cache it returns. -/
theorem video_render_present_is_masked (env : BgRemoval.RenderEnv)
    (s : BgRemoval.FilterState) (m : Option (Nat × Nat)) :
    (BgRemoval.video_render env s).2.action = BgRemoval.RenderAction.present m →
      m = (BgRemoval.video_render env s).1.masked := by
  unfold BgRemoval.video_render
  split
  · simp [BgRemoval.RenderOut.skipped]
  · split
    · split
      · exact render_process_present_is_masked env _ m
      · simp [BgRemoval.RenderOut.skipped]
    · intro hp
      simp only at hp ⊢
      simp at hp
      simp [hp]

/-- Helper for C6: video_render clears the dirty flag only by a
successful composite write which is then presented. -/
theorem video_render_dirty_clear (env : BgRemoval.RenderEnv)
    (s : BgRemoval.FilterState) :
    (BgRemoval.video_render env s).1.dirty = false →
      s.dirty = false ∨
        ((BgRemoval.video_render env s).2.compositeWrites = 1 ∧
          (BgRemoval.video_render env s).2.action =
            BgRemoval.RenderAction.present
              ((BgRemoval.video_render env s).1.masked)) := by
  unfold BgRemoval.video_render
  split
  · exact fun hd => Or.inl hd
  · split
    · split
      · exact fun hd => by
          simpa using render_process_dirty_clear env { s with input_tex := env.frame } hd
      · exact fun hd => Or.inl hd
    · exact fun hd => Or.inl hd

/-- C6: a render call on a clean (not dirty) instance with a ready
provider and a valid non-zero target performs no capture, no process
invocation, no composite write and no log, leaves the state untouched
and only presents the previously cached _masked texture; moreover every
render call that presents draws the cached _masked content, every tick
sets the dirty flag, and a render call clears the dirty flag only by a
successful composite write that it then presents. -/
theorem c6_render_cache_policy (env : BgRemoval.RenderEnv)
    (s : BgRemoval.FilterState)
    (hdirty : s.dirty = false)
    (hready : s.provider_ready = true)
    (htarget : ¬ (env.target = none ∧ env.parent = false))
    (hw : (env.target.getD (0, 0)).1 ≠ 0)
    (hh : (env.target.getD (0, 0)).2 ≠ 0) :
    (BgRemoval.video_render env s =
        (s, ⟨BgRemoval.RenderAction.present s.masked, 0, 0, 0, 0⟩)) ∧
      (∀ (e2 : BgRemoval.RenderEnv) (s2 : BgRemoval.FilterState) (m : Option (Nat × Nat)),
        (BgRemoval.video_render e2 s2).2.action = BgRemoval.RenderAction.present m →
          m = (BgRemoval.video_render e2 s2).1.masked) ∧
      (∀ (te : BgRemoval.TickEnv) (s3 : BgRemoval.FilterState),
        (BgRemoval.video_tick te s3).dirty = true) ∧
      (∀ (e4 : BgRemoval.RenderEnv) (s4 : BgRemoval.FilterState),
        (BgRemoval.video_render e4 s4).1.dirty = false →
          s4.dirty = false ∨
            ((BgRemoval.video_render e4 s4).2.compositeWrites = 1 ∧
              (BgRemoval.video_render e4 s4).2.action =
                BgRemoval.RenderAction.present
                  ((BgRemoval.video_render e4 s4).1.masked))) := by
  refine ⟨?_, video_render_present_is_masked, fun te s3 => rfl, video_render_dirty_clear⟩
  have hskip : ¬ (s.provider_ready = false ∨ (env.target = none ∧ env.parent = false) ∨
      (env.target.getD (0, 0)).1 = 0 ∨ (env.target.getD (0, 0)).2 = 0) := by
    simp only [hready, not_or]
    exact ⟨by simp, htarget, hw, hh⟩
  unfold BgRemoval.video_render
  rw [if_neg hskip, if_neg (by simp [hdirty])]

/-- C6 witness: the cache-policy theorem applied at a concrete clean
ready state. -/
theorem c6_render_cache_policy_witness :
    Fixtures.c6_state.dirty = false ∧
      BgRemoval.video_render Fixtures.c6_env Fixtures.c6_state =
        (Fixtures.c6_state,
          ⟨BgRemoval.RenderAction.present Fixtures.c6_state.masked, 0, 0, 0, 0⟩) :=
  ⟨by decide,
   (c6_render_cache_policy Fixtures.c6_env Fixtures.c6_state
      (by decide) (by decide) (by decide) (by decide) (by decide)).1⟩


/-- Helper for C7: the input block of resize is a no-op when the bound
input texture already has the requested dimensions. -/
theorem input_block_match (w h : Nat) (s1 : NvVfx.VfxState)
    (tin : NvCv.Texture) (si : NvCv.Image)
    (hi : s1.input = some tin) (hs : s1.source = some si)
    (hw : tin.width = w) (hh : tin.height = h) :
    NvVfx.input_block w h s1 = ⟨s1, NvCv.RoleEvents.zero, NvCv.RoleEvents.zero, 0⟩ := by
  simp [NvVfx.input_block, hi, hs, hw, hh]

/-- Helper for C7: the input block of resize reallocates input and source
exactly once each and marks the effect dirty when the bound input
texture's dimensions differ from the request. -/
theorem input_block_diff (w h : Nat) (s1 : NvVfx.VfxState)
    (tin : NvCv.Texture) (si : NvCv.Image)
    (hi : s1.input = some tin) (hs : s1.source = some si)
    (hd : tin.width ≠ w ∨ tin.height ≠ h) :
    NvVfx.input_block w h s1 =
      ⟨{ s1 with input := some ⟨w, h⟩, source := some ⟨w, h⟩, dirty := true },
        NvCv.RoleEvents.oneCycle, NvCv.RoleEvents.oneCycle, 1⟩ := by
  rcases hd with h1 | h1 <;>
    simp [NvVfx.input_block, NvCv.Texture.resize, NvCv.Image.resize, hi, hs,
      Ne.symm h1]

/-- Helper for C7: the output block of resize is a no-op when the bound
output texture already has the requested dimensions. -/
theorem output_block_match (w h : Nat) (s2 : NvVfx.VfxState)
    (tout : NvCv.Texture) (di : NvCv.Image)
    (ho : s2.output = some tout) (hd : s2.destination = some di)
    (hw : tout.width = w) (hh : tout.height = h) :
    NvVfx.output_block w h s2 = ⟨s2, NvCv.RoleEvents.zero, NvCv.RoleEvents.zero, 0⟩ := by
  simp [NvVfx.output_block, ho, hd, hw, hh]

/-- Helper for C7: the output block of resize reallocates destination and
output exactly once each and marks the effect dirty when the bound
output texture's dimensions differ from the request. -/
theorem output_block_diff (w h : Nat) (s2 : NvVfx.VfxState)
    (tout : NvCv.Texture) (di : NvCv.Image)
    (ho : s2.output = some tout) (hd : s2.destination = some di)
    (hdiff : tout.width ≠ w ∨ tout.height ≠ h) :
    NvVfx.output_block w h s2 =
      ⟨{ s2 with destination := some ⟨w, h⟩, output := some ⟨w, h⟩, dirty := true },
        NvCv.RoleEvents.oneCycle, NvCv.RoleEvents.oneCycle, 1⟩ := by
  rcases hdiff with h1 | h1 <;>
    simp [NvVfx.output_block, NvCv.Texture.resize, NvCv.Image.resize, ho, hd,
      Ne.symm h1]

/-- C7: with all buffers bound, a resize to the already-bound dimensions
performs no buffer event, no rebind and no state change at all (so the
dirty flag is untouched); a resize to different input dimensions puts the
input and source roles through exactly one unmap / dealloc / alloc / map
cycle each at the requested size, rebinds the provider's input image
parameter once and marks the effect dirty; and likewise a resize to
different output dimensions reallocates the destination and output roles
once each, rebinds the output image parameter once and marks the effect
dirty. -/
theorem c7_resize_reallocation_policy (w h : Nat) (s : NvVfx.VfxState)
    (tin tout : NvCv.Texture) (si di tm : NvCv.Image)
    (htmp : s.tmp = some tm) (hi : s.input = some tin) (hs : s.source = some si)
    (hd : s.destination = some di) (ho : s.output = some tout) :
    ((tin.width = w ∧ tin.height = h ∧ tout.width = w ∧ tout.height = h) →
        NvVfx.resize w h s = (s, NvVfx.ResizeEvents.zero)) ∧
      ((tin.width ≠ w ∨ tin.height ≠ h) →
        (NvVfx.resize w h s).2.input = NvCv.RoleEvents.oneCycle ∧
          (NvVfx.resize w h s).2.source = NvCv.RoleEvents.oneCycle ∧
          (NvVfx.resize w h s).2.setInputImage = 1 ∧
          (NvVfx.resize w h s).1.input = some ⟨w, h⟩ ∧
          (NvVfx.resize w h s).1.source = some ⟨w, h⟩ ∧
          (NvVfx.resize w h s).1.dirty = true) ∧
      ((tout.width ≠ w ∨ tout.height ≠ h) →
        (NvVfx.resize w h s).2.destination = NvCv.RoleEvents.oneCycle ∧
          (NvVfx.resize w h s).2.output = NvCv.RoleEvents.oneCycle ∧
          (NvVfx.resize w h s).2.setOutputImage = 1 ∧
          (NvVfx.resize w h s).1.destination = some ⟨w, h⟩ ∧
          (NvVfx.resize w h s).1.output = some ⟨w, h⟩ ∧
          (NvVfx.resize w h s).1.dirty = true) := by
  have hs1 : { s with tmp := some tm } = s := by rw [← htmp]
  refine ⟨fun hm => ?_, fun hdif => ?_, fun hdif2 => ?_⟩
  · obtain ⟨h1, h2, h3, h4⟩ := hm
    unfold NvVfx.resize
    rw [htmp]
    simp only [hs1]
    rw [input_block_match w h s tin si hi hs h1 h2]
    simp only []
    rw [output_block_match w h s tout di ho hd h3 h4]
    rfl
  · unfold NvVfx.resize
    rw [htmp]
    simp only [hs1]
    rw [input_block_diff w h s tin si hi hs hdif]
    simp only []
    by_cases hmatch : tout.width = w ∧ tout.height = h
    · rw [output_block_match w h _ tout di (by simp [ho]) (by simp [hd])
        hmatch.1 hmatch.2]
      simp
    · rw [output_block_diff w h _ tout di (by simp [ho]) (by simp [hd])
        (by rcases not_and_or.mp hmatch with h1 | h1 <;> [exact Or.inl h1; exact Or.inr h1])]
      simp
  · unfold NvVfx.resize
    rw [htmp]
    simp only [hs1]
    by_cases hmatch : tin.width = w ∧ tin.height = h
    · rw [input_block_match w h s tin si hi hs hmatch.1 hmatch.2]
      simp only []
      rw [output_block_diff w h s tout di ho hd hdif2]
      simp
    · rw [input_block_diff w h s tin si hi hs
        (by rcases not_and_or.mp hmatch with h1 | h1 <;> [exact Or.inl h1; exact Or.inr h1])]
      simp only []
      rw [output_block_diff w h _ tout di (by simp [ho]) (by simp [hd]) hdif2]
      simp

/-- C7 witness: the reallocation-policy theorem applied at a concrete
fully bound state resized to its own dimensions. -/
theorem c7_resize_reallocation_policy_witness :
    Fixtures.c7_state.tmp = some ⟨4, 4⟩ ∧
      NvVfx.resize 4 4 Fixtures.c7_state = (Fixtures.c7_state, NvVfx.ResizeEvents.zero) :=
  ⟨rfl,
   (c7_resize_reallocation_policy 4 4 Fixtures.c7_state ⟨4, 4⟩ ⟨4, 4⟩ ⟨4, 4⟩ ⟨4, 4⟩ ⟨4, 4⟩
      rfl rfl rfl rfl rfl).1 ⟨rfl, rfl, rfl, rfl⟩⟩
